import Mathlib

/-!
Shallow embedding of `src/streamcoin.py` (crypto-market-report): the
universe-selection pipeline, the stablecoin heuristic, the scenario
annotator and the report formatters.  Numeric fields of the market data
are modelled as `Option ℚ` (JSON numbers / nullable floats); strings are
Lean `String`s.  Python's string `lower()`/`upper()` are modelled on the
ASCII range (all identifiers and symbols in the data are ASCII), and
float formatting (`f-strings`) is modelled over ℚ with round-half-to-even
ties, matching CPython's formatting of decimal-exact doubles.

Batteries marks the arithmetic on `Rat` `@[irreducible]`; below it is
restored to the ordinary reducibility so that concrete runs of the embedded
program reduce inside `decide` (this changes no definition and no proof
obligation, only unfolding behaviour).
-/

set_option allowUnsafeReducibility true in
attribute [semireducible] Rat.ofScientific Rat.mul Rat.inv Rat.add Rat.sub

/-- ASCII lowercase of one character (models Python `str.lower` on ASCII data). -/
def lowerChar (c : Char) : Char :=
  if 65 ≤ c.toNat ∧ c.toNat ≤ 90 then Char.ofNat (c.toNat + 32) else c

/-- ASCII uppercase of one character (models Python `str.upper` on ASCII data). -/
def upperChar (c : Char) : Char :=
  if 97 ≤ c.toNat ∧ c.toNat ≤ 122 then Char.ofNat (c.toNat - 32) else c

/-- ASCII lowercase of a string. -/
def lowerStr (s : String) : String := String.mk (s.toList.map lowerChar)

/-- ASCII uppercase of a string. -/
def upperStr (s : String) : String := String.mk (s.toList.map upperChar)

/-- `pat` is a prefix of `hay` (character lists). -/
def chStartsWith : List Char → List Char → Bool
  | _, [] => true
  | [], _ :: _ => false
  | h :: hs, p :: ps => (h == p) && chStartsWith hs ps

/-- `pat` occurs as a contiguous substring of `hay` (models Python `pat in hay`). -/
def chContains : List Char → List Char → Bool
  | [], pat => pat.isEmpty
  | h :: t, pat => chStartsWith (h :: t) pat || chContains t pat

/-- String-level substring test (models Python `pat in hay`). -/
def strContains (hay pat : String) : Bool := chContains hay.toList pat.toList

/-- The decimal digit character for `n % 10`. -/
def digitChar (n : ℕ) : Char := Char.ofNat (48 + n % 10)

/-- Little-endian decimal digits of `n` (empty for `n = 0`); `fuel ≥ n` suffices. -/
def natDigitsRev : ℕ → ℕ → List Char
  | 0, _ => []
  | fuel + 1, n => if n = 0 then [] else digitChar (n % 10) :: natDigitsRev fuel (n / 10)

/-- Plain decimal rendering of a natural number. -/
def natRepr (n : ℕ) : String :=
  if n = 0 then ("0") else String.mk (natDigitsRev n n).reverse

/-- Insert a thousands separator every three digits into a little-endian digit list. -/
def groupRev : ℕ → List Char → List Char
  | _, [] => []
  | i, c :: cs =>
    if i ≠ 0 ∧ i % 3 = 0 then ',' :: c :: groupRev (i + 1) cs
    else c :: groupRev (i + 1) cs

/-- Decimal rendering of a natural number with thousands separators
(models the `,` flag of a Python format spec). -/
def natCommaStr (n : ℕ) : String :=
  if n = 0 then ("0") else String.mk (groupRev 0 (natDigitsRev n n)).reverse

/-- Pad a little-endian digit list with zeros up to width `d` (leading zeros
of the fractional part). -/
def padZeros (d : ℕ) (l : List Char) : List Char := l ++ List.replicate (d - l.length) '0'

/-- The fractional part `fp < 10^d` rendered as exactly `d` digits. -/
def fracStr (d fp : ℕ) : String := String.mk (padZeros d (natDigitsRev fp fp)).reverse

/-- Floor of a rational as an integer (computable). -/
def ratFloor (q : ℚ) : ℤ := Int.fdiv q.num q.den

/-- Round a rational to the nearest integer, ties to even
(CPython rounds the exact value of a double this way when formatting). -/
def roundHalfEven (q : ℚ) : ℤ :=
  let f := ratFloor q
  let r := q - (f : ℚ)
  if r < 1/2 then f
  else if 1/2 < r then f + 1
  else if f % 2 = 0 then f else f + 1

/-- `q` scaled by `10^d` and rounded to an integer. -/
def scaledRound (d : ℕ) (q : ℚ) : ℤ := roundHalfEven (q * (10 : ℚ) ^ d)

/-- Fixed-point rendering of a nonnegative rational with `d` decimals,
with or without thousands separators (models `f"{x:,.df}"` for `x ≥ 0`). -/
def fmtFixed (commas : Bool) (d : ℕ) (q : ℚ) : String :=
  let s := (scaledRound d q).toNat
  let ip := s / 10 ^ d
  let fp := s % 10 ^ d
  let ipStr := if commas then natCommaStr ip else natRepr ip
  if d = 0 then ipStr else ipStr ++ (".") ++ fracStr d fp

/-- Fixed-point rendering of any rational, sign included
(models `f"{x:,.df}"`). -/
def fmtSigned (commas : Bool) (d : ℕ) (q : ℚ) : String :=
  if q < 0 then ("-") ++ fmtFixed commas d (-q) else fmtFixed commas d q

/-- Normalize a positive rational to mantissa–exponent form with the
mantissa in `[1, 10)`; `fuel` bounds the number of scaling steps. -/
def sciNorm : ℕ → ℚ → ℚ × ℤ
  | 0, q => (q, 0)
  | fuel + 1, q =>
    if q < 1 then
      let p := sciNorm fuel (q * 10)
      (p.1, p.2 - 1)
    else if 10 ≤ q then
      let p := sciNorm fuel (q / 10)
      (p.1, p.2 + 1)
    else (q, 0)

/-- A natural number padded to at least two digits (exponent field width). -/
def pad2 (n : ℕ) : String := if n < 10 then ("0") ++ natRepr n else natRepr n

/-- Scientific rendering with two decimals (models Python `f"{x:.2e}"`). -/
def fmtSci (q : ℚ) : String :=
  if q = 0 then ("0.00e+00")
  else
    let sgn := if q < 0 then ("-") else ("")
    let a := |q|
    let p := sciNorm (a.num.natAbs + a.den) a
    let m := (roundHalfEven (p.1 * 100)).toNat
    let m2 := if 1000 ≤ m then (100, p.2 + 1) else (m, p.2)
    let eStr := if m2.2 < 0 then ("-") ++ pad2 m2.2.natAbs else ("+") ++ pad2 m2.2.natAbs
    sgn ++ natRepr (m2.1 / 100) ++ (".") ++ fracStr 2 (m2.1 % 100) ++ ("e") ++ eStr

/-! ## Configuration constants (`src/streamcoin.py`, lines 9–41) -/

/-- `TOP_N = 50` (line 9). -/
def TOP_N : ℕ := 50

/-- `EXCLUDE_IDS` (line 15): wrapped-asset identifiers. -/
def EXCLUDE_IDS : List String :=
  ["wrapped-bitcoin", "weth", "staked-ether", "wrapped-beacon-eth",
   "coinbase-wrapped-staked-eth"]

/-- `EXCLUDE_SYMS` (line 16): wrapped-asset symbols (lowercase). -/
def EXCLUDE_SYMS : List String := ["wbtc", "weth", "steth", "wbeth", "cbeth"]

/-- `KNOWN_STABLE_IDS` (lines 17–20). -/
def KNOWN_STABLE_IDS : List String :=
  ["tether", "usd-coin", "dai", "frax", "first-digital-usd", "true-usd",
   "paxos-standard", "binance-usd", "gemini-dollar", "liquity-usd", "usdd",
   "nusd", "susd", "usde", "paypal-usd"]

/-- `KNOWN_STABLE_SYMS` (lines 21–23). -/
def KNOWN_STABLE_SYMS : List String :=
  ["usdt", "usdc", "dai", "frax", "fdusd", "tusd", "usdp", "busd", "gusd",
   "lusd", "usdd", "susd", "usde", "pyusd"]

/-- `SCENARIO_OVERRIDES` (lines 28–41): static bull/base/bear text per identifier. -/
def SCENARIO_OVERRIDES : List (String × (String × String × String)) :=
  [("bitcoin", ("200000", "120000–150000", "80000–100000")),
   ("ethereum", ("10000", "5000–7000", "2500–4000")),
   ("solana", ("800", "200–400", "<150")),
   ("binancecoin", ("2000", "1000–1300", "500–800")),
   ("ripple", ("10", "3–5", "1.5–3")),
   ("cardano", ("4", "1–2", "0.3–0.8")),
   ("dogecoin", ("1.00", "0.30–0.50", "0.10–0.25")),
   ("avalanche-2", ("150", "40–80", "20–35")),
   ("polkadot", ("20", "7–12", "3–5")),
   ("chainlink", ("80", "30–60", "15–25")),
   ("tron", ("0.80", "0.40–0.60", "0.20–0.30")),
   ("cosmos", ("25", "8–15", "3–6"))]

/-- The substring looked for by the stablecoin name heuristic (line 103). -/
def usdLit : String := "usd"

/-- The sentinel rendered for absent data (lines 58, 166, 175–177). -/
def emDash : String := "—"

/-! ## Data model -/

/-- One coin object of the market-data response (spec §3, `CoinRecord`):
`id`, `symbol`, `name`, `current_price`, `price_change_percentage_24h`,
`price_change_percentage_7d_in_currency`, `market_cap`; the numeric fields
are nullable. -/
structure CoinRecord where
  id : String
  symbol : String
  name : String
  current_price : Option ℚ
  price_change_percentage_24h : Option ℚ
  price_change_percentage_7d_in_currency : Option ℚ
  market_cap : Option ℚ
deriving DecidableEq

/-! ## Helpers of the pipeline (`src/streamcoin.py`, lines 44–62) -/

/-- `looks_stable_like(price, ch24, ch7d)` (lines 44–54): false on a null
price; otherwise price within `[0.95, 1.05]` and, when BOTH change fields
are present, `|ch24| < 2.5 and |ch7d| < 4.0` (when either is missing the
volatility flag keeps its initial `True`; the `try/except` around the body
can never fire on numeric data and adds nothing to the model). -/
def looks_stable_like (price ch24 ch7d : Option ℚ) : Bool :=
  match price with
  | none => false
  | some p =>
    let near_one := decide ((0.95 : ℚ) ≤ p) && decide (p ≤ (1.05 : ℚ))
    let low_vol :=
      match ch24, ch7d with
      | some a, some b => decide (|a| < (2.5 : ℚ)) && decide (|b| < (4.0 : ℚ))
      | _, _ => true
    near_one && low_vol

/-- `default_scenarios(curr_price)` (lines 56–62): the em-dash triple on a
null or non-positive price, else `price×2.5 / price×1.5 / price×0.6`, each
rendered as `f"{v:,.2f}"`. -/
def default_scenarios (curr_price : Option ℚ) : String × String × String :=
  match curr_price with
  | none => (emDash, emDash, emDash)
  | some p =>
    if p ≤ 0 then (emDash, emDash, emDash)
    else (fmtSigned true 2 (p * 2.5), fmtSigned true 2 (p * 1.5),
          fmtSigned true 2 (p * 0.6))

/-- `SCENARIO_OVERRIDES.get(cid, default_scenarios(price))` (line 124). -/
def scenario_for (cid : String) (price : Option ℚ) : String × String × String :=
  match SCENARIO_OVERRIDES.lookup cid with
  | some t => t
  | none => default_scenarios price

/-! ## Universe selection (`src/streamcoin.py`, lines 92–109)

`pick_universe` is modelled as a function of the fetched market list,
already sorted by descending market capitalization (line 90; the spec's
Selector contract likewise receives candidates "already sorted by
descending market capitalization").  `INCLUDE_ONLY` is the empty list
(line 14), so the branch at lines 80–87 is dead code. -/

/-- The stable-heuristic exclusion applied at lines 103–104:
`looks_stable_like(...) and ("usd" in sym or "usd" in name)` on the
lowercased symbol and name. -/
def stableExcluded (c : CoinRecord) : Bool :=
  looks_stable_like c.current_price c.price_change_percentage_24h
      c.price_change_percentage_7d_in_currency
    && (strContains (lowerStr c.symbol) usdLit
        || strContains (lowerStr c.name) usdLit)

/-- The three `continue` guards of the loop body (lines 101–104) combined:
a candidate is appended iff none of them fires. -/
def accept (c : CoinRecord) : Bool :=
  !(decide (c.id ∈ EXCLUDE_IDS) || decide (lowerStr c.symbol ∈ EXCLUDE_SYMS)
    || decide (c.id ∈ KNOWN_STABLE_IDS)
    || decide (lowerStr c.symbol ∈ KNOWN_STABLE_SYMS)
    || stableExcluded c)

/-- The `for`/`break` loop at lines 92–108: `k` is `len(picked)` so far;
after an append the loop breaks once `len(picked) >= TOP_N` (line 107). -/
def pickLoop : ℕ → List CoinRecord → List CoinRecord
  | _, [] => []
  | k, c :: cs =>
    if accept c then
      if TOP_N ≤ k + 1 then [c] else c :: pickLoop (k + 1) cs
    else pickLoop k cs

/-- `pick_universe()` (lines 92–109) on the sorted market list: the loop
runs over `markets[:TOP_N*2]` (line 93, "grab extra to allow removals"). -/
def pick_universe (markets : List CoinRecord) : List CoinRecord :=
  pickLoop 0 (markets.take (TOP_N * 2))

/-! ## Report rows (`src/streamcoin.py`, lines 113–138) -/

/-- One row built by `fetch_data` (lines 126–136): rank, uppercased symbol,
name, the raw numeric fields, and the scenario triple. -/
structure ReportRow where
  rank : ℕ
  sym : String
  name : String
  live_usd : Option ℚ
  ch24 : Option ℚ
  mcap : Option ℚ
  bull : String
  base : String
  bear : String
deriving DecidableEq

/-- The row for candidate `c` at 1-based rank `i` (lines 116–136). -/
def mkRow (i : ℕ) (c : CoinRecord) : ReportRow :=
  let t := scenario_for c.id c.current_price
  { rank := i, sym := upperStr c.symbol, name := c.name,
    live_usd := c.current_price, ch24 := c.price_change_percentage_24h,
    mcap := c.market_cap, bull := t.1, base := t.2.1, bear := t.2.2 }

/-- `enumerate(universe, 1)` (line 116). -/
def buildRowsAux : ℕ → List CoinRecord → List ReportRow
  | _, [] => []
  | i, c :: cs => mkRow i c :: buildRowsAux (i + 1) cs

/-- `fetch_data()` (lines 113–138) as a function of the sorted market list.
The trailing `pd.DataFrame(rows).sort_values("Rank")` is the identity here:
ranks are assigned `1, 2, …` in order, so the rows are already ascending in
the unique sort key. -/
def fetch_data (markets : List CoinRecord) : List ReportRow :=
  buildRowsAux 1 (pick_universe markets)

/-! ## Report formatting (`src/streamcoin.py`, lines 165–177) -/

/-- `fmt_price(x)` (lines 165–172): em dash on null, then tiered precision
on `ax = abs(x)`, with a scientific fallback `f"${x:.2e}"`. -/
def fmt_price (x : Option ℚ) : String :=
  match x with
  | none => emDash
  | some v =>
    let ax := |v|
    if ax ≥ 100 then ("$") ++ fmtSigned true 2 v
    else if ax ≥ 1 then ("$") ++ fmtSigned true 4 v
    else if ax ≥ 0.01 then ("$") ++ fmtSigned true 6 v
    else if ax ≥ 0.000001 then ("$") ++ fmtSigned true 8 v
    else ("$") ++ fmtSci v

/-- The 24h-percent lambda of line 176: `f"{x:+.2f}%"`, em dash on null. -/
def fmt_pct (x : Option ℚ) : String :=
  match x with
  | none => emDash
  | some v => (if v < 0 then ("-") else ("+")) ++ fmtFixed false 2 |v| ++ ("%")

/-- The market-cap lambda of line 177: `f"${x:,.0f}"`, em dash on null. -/
def fmt_mcap (x : Option ℚ) : String :=
  match x with
  | none => emDash
  | some v => ("$") ++ fmtSigned true 0 v

/-- One row of `df_display` (lines 174–177): the three numeric columns
mapped to display strings, the rest carried over. -/
structure DisplayRow where
  rank : ℕ
  sym : String
  name : String
  live_usd : String
  ch24 : String
  mcap : String
  bull : String
  base : String
  bear : String
deriving DecidableEq

/-- The mapping applied to each row by lines 174–177 (each lambda guards
with `pd.notna`, and `fmt_price` re-checks null itself). -/
def displayRow (r : ReportRow) : DisplayRow :=
  { rank := r.rank, sym := r.sym, name := r.name,
    live_usd := match r.live_usd with | none => emDash | some v => fmt_price (some v),
    ch24 := fmt_pct r.ch24, mcap := fmt_mcap r.mcap,
    bull := r.bull, base := r.base, bear := r.bear }

/-- `df_display` (lines 174–177) as a function of the sorted market list. -/
def df_display (markets : List CoinRecord) : List DisplayRow :=
  (fetch_data markets).map displayRow

/-! ## Spec-side definitions, for comparison with the code -/

/-- The spec's volatility condition: when both change fields are present,
`|ch24| < 2.5 ∧ |ch7d| < 4.0`; missing change data counts as passing. -/
def volPassSpec : Option ℚ → Option ℚ → Prop
  | some a, some b => |a| < 2.5 ∧ |b| < 4.0
  | _, _ => True

/-- Claim C3's "stable-like" exclusion condition, stated from the spec's
words: a non-null price in `[0.95, 1.05]`, the volatility check passing,
and the substring "usd" occurring in the lowercase symbol or name. -/
def stableLikeSpec (c : CoinRecord) : Prop :=
  ∃ p, c.current_price = some p ∧ 0.95 ≤ p ∧ p ≤ 1.05 ∧
    volPassSpec c.price_change_percentage_24h
      c.price_change_percentage_7d_in_currency ∧
    ((∃ l r, (lowerStr c.symbol).toList = l ++ usdLit.toList ++ r) ∨
     (∃ l r, (lowerStr c.name).toList = l ++ usdLit.toList ++ r))

/-- The spec's tier table for price display: the number of decimals, or
`none` for the scientific fallback. -/
def tierDecimals (ax : ℚ) : Option ℕ :=
  if ax ≥ 100 then some 2
  else if ax ≥ 1 then some 4
  else if ax ≥ 0.01 then some 6
  else if ax ≥ 0.000001 then some 8
  else none

/-- The price formatter as §4.3 of the spec words it: pick the precision
from the tier table, else scientific; null to the em dash. -/
def fmtPriceSpec (x : Option ℚ) : String :=
  match x with
  | none => emDash
  | some v =>
    match tierDecimals |v| with
    | some d => ("$") ++ fmtSigned true d v
    | none => ("$") ++ fmtSci v

/-- The Selector as claim C4 words it: scan the whole candidate list in
input order, collecting accepted records, and stop exactly at `TOP_N`
accepted or at the end of the list — i.e. `take TOP_N` of the accepted
subsequence of the full list. -/
def pickUniverseClaimed (markets : List CoinRecord) : List CoinRecord :=
  (markets.filter accept).take TOP_N

/-- A record with every nullable numeric field null. -/
def nullNumerics (c : CoinRecord) : CoinRecord :=
  { c with
    current_price := none
    price_change_percentage_24h := none
    price_change_percentage_7d_in_currency := none
    market_cap := none }

/-! ## Concrete records used by witnesses and counterexamples -/

/-- An ordinary accepted candidate. -/
def btcRec : CoinRecord :=
  { id := "bitcoin", symbol := "btc", name := "Bitcoin",
    current_price := some 60000, price_change_percentage_24h := some 1,
    price_change_percentage_7d_in_currency := some 2,
    market_cap := some 1000000000 }

/-- A candidate rejected by `KNOWN_STABLE_IDS`. -/
def tetherRec : CoinRecord :=
  { id := "tether", symbol := "usdt", name := "Tether",
    current_price := some 1, price_change_percentage_24h := some 0,
    price_change_percentage_7d_in_currency := some 0,
    market_cap := some 2000000000 }

/-- A "usd"-named candidate with price 1, a missing 24h change and a huge
7d change. -/
def xusdRec : CoinRecord :=
  { id := "xusd-coin", symbol := "xusd", name := "X USD",
    current_price := some 1, price_change_percentage_24h := none,
    price_change_percentage_7d_in_currency := some 1000000,
    market_cap := some 5 }

/-- A market list whose first `TOP_N*2` candidates are all rejected while
an acceptable candidate sits just past the window. -/
def cexMarkets : List CoinRecord := List.replicate 100 tetherRec ++ [btcRec]

example : lowerStr "AbC-9" = "abc-9" := by decide
example : upperStr "btc" = "BTC" := by decide
example : strContains "tether" "usd" = false := by decide
example : strContains "xusd" "usd" = true := by decide
example : natCommaStr 123456789 = "123,456,789" := by decide
example : fmtSigned true 2 150 = "150.00" := by decide
example : fmtSigned false 2 (-3.2) = "-3.20" := by decide
example : fmtSigned true 0 123456789 = "123,456,789" := by decide
example : fmtSci 0.0000005 = "5.00e-07" := by decide
example : fmtFixed true 2 (10 * 0.6) = "6.00" := by decide
example : fmtFixed true 2 (2000 * 2.5) = "5,000.00" := by decide
example : looks_stable_like (some 1) (some 0.1) (some 0.2) = true := by decide
example : looks_stable_like (some 1) (some 10) (some 0.2) = false := by decide
example : looks_stable_like (some 1) none (some 1000000) = true := by decide
example : looks_stable_like none (some 0) (some 0) = false := by decide
example : default_scenarios (some 10) = ("25.00", "15.00", "6.00") := by decide
example : default_scenarios none = ("—", "—", "—") := by decide
example : scenario_for ("bitcoin") (some 7) = ("200000", "120000–150000", "80000–100000") := by decide
example : scenario_for ("foo") (some 10) = ("25.00", "15.00", "6.00") := by decide
example : fmt_price (some 150) = "$150.00" := by decide
example : fmt_price (some 0.0000005) = "$5.00e-07" := by decide
example : fmt_price (some 2.5) = "$2.5000" := by decide
example : fmt_price none = "—" := by decide
example : fmt_pct (some (-3.2)) = "-3.20%" := by decide
example : fmt_mcap (some 123456789) = "$123,456,789" := by decide
example :
    accept { id := "xusd-coin", symbol := "XUSD", name := "X USD",
             current_price := some 1, price_change_percentage_24h := some 0.1,
             price_change_percentage_7d_in_currency := some 0.2,
             market_cap := some 5 } = false := by decide
example :
    accept { id := "bitcoin", symbol := "btc", name := "Bitcoin",
             current_price := some 60000, price_change_percentage_24h := some 1,
             price_change_percentage_7d_in_currency := some 2,
             market_cap := some 1000000 } = true := by decide
example :
    pick_universe
      [{ id := "tether", symbol := "usdt", name := "Tether",
         current_price := some 1, price_change_percentage_24h := some 0,
         price_change_percentage_7d_in_currency := some 0, market_cap := some 9 },
       { id := "bitcoin", symbol := "btc", name := "Bitcoin",
         current_price := some 60000, price_change_percentage_24h := some 1,
         price_change_percentage_7d_in_currency := some 2, market_cap := some 10 }] =
      [{ id := "bitcoin", symbol := "btc", name := "Bitcoin",
         current_price := some 60000, price_change_percentage_24h := some 1,
         price_change_percentage_7d_in_currency := some 2, market_cap := some 10 }] := by
  decide

/-! ## Helper lemmas -/

theorem chStartsWith_iff (pat : List Char) :
    ∀ hay, chStartsWith hay pat = true ↔ ∃ rest, hay = pat ++ rest := by
  induction pat with
  | nil => intro hay; cases hay <;> simp [chStartsWith]
  | cons p ps ih =>
    intro hay
    cases hay with
    | nil => simp [chStartsWith]
    | cons h t =>
      simp only [chStartsWith, Bool.and_eq_true, beq_iff_eq, ih t,
        List.cons_append, List.cons.injEq]
      constructor
      · rintro ⟨rfl, rest, rfl⟩; exact ⟨rest, rfl, rfl⟩
      · rintro ⟨rest, rfl, rfl⟩; exact ⟨rfl, rest, rfl⟩

theorem chContains_iff (pat : List Char) :
    ∀ hay, chContains hay pat = true ↔ ∃ l r, hay = l ++ pat ++ r := by
  intro hay
  induction hay with
  | nil =>
    simp only [chContains, List.isEmpty_iff]
    constructor
    · rintro rfl; exact ⟨[], [], rfl⟩
    · rintro ⟨l, r, h⟩
      rcases List.append_eq_nil.1 (List.append_eq_nil.1 h.symm).1 with ⟨-, h2⟩
      exact h2
  | cons h t ih =>
    simp only [chContains, Bool.or_eq_true, chStartsWith_iff pat, ih]
    constructor
    · rintro (⟨rest, hr⟩ | ⟨l, r, hr⟩)
      · exact ⟨[], rest, by simpa using hr⟩
      · exact ⟨h :: l, r, by simp [hr]⟩
    · rintro ⟨l, r, hl⟩
      cases l with
      | nil => exact Or.inl ⟨r, by simpa using hl⟩
      | cons a l' =>
        simp only [List.cons_append, List.cons.injEq] at hl
        exact Or.inr ⟨l', r, hl.2⟩

theorem pickLoop_eq :
    ∀ (l : List CoinRecord) (k : ℕ), k < TOP_N →
      pickLoop k l = (l.filter accept).take (TOP_N - k) := by
  intro l
  induction l with
  | nil => intro k _; simp [pickLoop]
  | cons c cs ih =>
    intro k hk
    by_cases hc : accept c
    · by_cases h2 : TOP_N ≤ k + 1
      · have hEq : TOP_N - k = 1 := by omega
        simp [pickLoop, hc, h2, hEq]
      · have hEq : TOP_N - k = (TOP_N - (k + 1)) + 1 := by omega
        simp [pickLoop, hc, h2, hEq, ih (k + 1) (by omega)]
    · simp [pickLoop, hc, ih k hk]

theorem pick_universe_eq (markets : List CoinRecord) :
    pick_universe markets =
      ((markets.take (TOP_N * 2)).filter accept).take TOP_N := by
  simpa using pickLoop_eq (markets.take (TOP_N * 2)) 0 (by decide)

/-! ## Claim theorems -/

/-- C1: for every input list of candidates, `pick_universe` returns at
most `TOP_N` (= 50) records. -/
theorem pick_universe_length_le (markets : List CoinRecord) :
    (pick_universe markets).length ≤ TOP_N := by
  rw [pick_universe_eq]
  exact List.length_take_le _ _

/-- C2: no record selected by `pick_universe` has an identifier in
`EXCLUDE_IDS` or `KNOWN_STABLE_IDS`, and none has a symbol whose lowercase
form is in `EXCLUDE_SYMS` or `KNOWN_STABLE_SYMS` (matching of symbols is
case-insensitive: the code lowercases them first). -/
theorem pick_universe_excludes_listed (markets : List CoinRecord)
    (c : CoinRecord) (hc : c ∈ pick_universe markets) :
    (c.id ∉ EXCLUDE_IDS ∧ c.id ∉ KNOWN_STABLE_IDS) ∧
    (lowerStr c.symbol ∉ EXCLUDE_SYMS ∧ lowerStr c.symbol ∉ KNOWN_STABLE_SYMS) := by
  rw [pick_universe_eq] at hc
  have ha := (List.mem_filter.1 (List.mem_of_mem_take hc)).2
  simp only [accept, Bool.not_eq_true', Bool.or_eq_false_iff,
    decide_eq_false_iff_not] at ha
  exact ⟨⟨ha.1.1.1.1, ha.1.1.2⟩, ⟨ha.1.1.1.2, ha.1.2⟩⟩

/-- C2 witness: a concrete selected record satisfies all four exclusions. -/
theorem pick_universe_excludes_listed_witness :
    btcRec ∈ pick_universe [btcRec] ∧
    ((btcRec.id ∉ EXCLUDE_IDS ∧ btcRec.id ∉ KNOWN_STABLE_IDS) ∧
     (lowerStr btcRec.symbol ∉ EXCLUDE_SYMS ∧
      lowerStr btcRec.symbol ∉ KNOWN_STABLE_SYMS)) :=
  ⟨by decide, pick_universe_excludes_listed [btcRec] btcRec (by decide)⟩

/-- C4 counterexample: on a market list whose first `TOP_N*2` candidates
are all rejected and whose last candidate is acceptable, the code returns
the empty selection, while scanning the whole candidate list — what the
claim describes — would return that candidate: the loop runs over
`markets[:TOP_N*2]` only (line 93), so it can stop with fewer than `TOP_N`
accepted records even though the candidate list is not exhausted. -/
theorem pick_universe_window_cex :
    pick_universe cexMarkets = [] ∧
    pickUniverseClaimed cexMarkets = [btcRec] ∧
    pick_universe cexMarkets ≠ pickUniverseClaimed cexMarkets := by
  refine ⟨by decide, by decide, by decide⟩

/-- C4 (amended): the selector iterates only the first `TOP_N*2`
candidates in input order and stops exactly when `TOP_N` records have been
accepted or that window is exhausted; it never backfills from later pages
or from candidates beyond the window. -/
theorem pick_universe_stops_at_window (markets : List CoinRecord) :
    pick_universe markets =
      ((markets.take (TOP_N * 2)).filter accept).take TOP_N :=
  pick_universe_eq markets

/-- C5: an identifier with a static override entry gets that entry
verbatim, whatever the live price; in particular "bitcoin" always yields
`("200000", "120000–150000", "80000–100000")`. -/
theorem scenario_override_verbatim (cid : String)
    (t : String × String × String) (price : Option ℚ)
    (h : SCENARIO_OVERRIDES.lookup cid = some t) :
    scenario_for cid price = t ∧
    scenario_for ("bitcoin") price = ("200000", "120000–150000", "80000–100000") := by
  constructor
  · unfold scenario_for
    rw [h]
  · unfold scenario_for
    rw [show SCENARIO_OVERRIDES.lookup ("bitcoin") =
      some (("200000", "120000–150000", "80000–100000")) from by decide]

/-- C5 witness: "bitcoin" at the concrete price 123. -/
theorem scenario_override_verbatim_witness :
    scenario_for ("bitcoin") (some 123) =
      ("200000", "120000–150000", "80000–100000") :=
  (scenario_override_verbatim ("bitcoin")
    (("200000", "120000–150000", "80000–100000")) (some 123) (by decide)).1

/-- C9: the pipeline stages are pure functions of the fetched input: two
runs of selection, annotation, ranking and formatting on identical market
data produce identical row sequences. -/
theorem pipeline_deterministic (m1 m2 : List CoinRecord) (h : m1 = m2) :
    fetch_data m1 = fetch_data m2 ∧ df_display m1 = df_display m2 := by
  subst h
  exact ⟨rfl, rfl⟩

/-- C9 witness: a concrete double run. -/
theorem pipeline_deterministic_witness :
    fetch_data [btcRec] = fetch_data [btcRec] ∧
    df_display [btcRec] = df_display [btcRec] :=
  pipeline_deterministic [btcRec] [btcRec] rfl

/-- C6: without an override, a null or non-positive price yields the
em-dash triple; a positive price yields `price×2.5 / price×1.5 / price×0.6`
each rendered with thousands separators and exactly two decimals; price 10
yields `("25.00", "15.00", "6.00")` (and 2000 shows the separators). -/
theorem default_scenarios_spec (p : ℚ) :
    default_scenarios none = ("—", "—", "—") ∧
    (p ≤ 0 → default_scenarios (some p) = ("—", "—", "—")) ∧
    (0 < p → default_scenarios (some p) =
      (fmtSigned true 2 (p * 2.5), fmtSigned true 2 (p * 1.5),
       fmtSigned true 2 (p * 0.6))) ∧
    default_scenarios (some 10) = ("25.00", "15.00", "6.00") ∧
    default_scenarios (some 2000) = ("5,000.00", "3,000.00", "1,200.00") := by
  refine ⟨rfl, ?_, ?_, by decide, by decide⟩
  · intro h
    simp [default_scenarios, emDash, h]
  · intro h
    simp [default_scenarios, not_le.2 h]

/-- C6 witness: the hypotheses discharged at -1 and at 4. -/
theorem default_scenarios_spec_witness :
    default_scenarios (some (-1)) = ("—", "—", "—") ∧
    default_scenarios (some 4) =
      (fmtSigned true 2 (4 * 2.5), fmtSigned true 2 (4 * 1.5),
       fmtSigned true 2 (4 * 0.6)) :=
  ⟨(default_scenarios_spec (-1)).2.1 (by decide),
   (default_scenarios_spec 4).2.2.1 (by decide)⟩

set_option maxHeartbeats 2000000 in
/-- C7: `fmt_price` agrees everywhere with the spec's tier table
(≥100 → 2 decimals, ≥1 → 4, ≥0.01 → 6, ≥0.000001 → 8, else scientific
with 2 decimals; null → "—"), and the formatters hit the spec's examples:
150 → "$150.00", 0.0000005 → scientific, -3.2 → "-3.20%",
123456789 → "$123,456,789". -/
theorem formatter_spec (x : Option ℚ) :
    fmt_price x = fmtPriceSpec x ∧
    fmt_price none = "—" ∧
    fmt_price (some 150) = "$150.00" ∧
    fmt_price (some 0.0000005) = "$5.00e-07" ∧
    fmt_pct (some (-3.2)) = "-3.20%" ∧
    fmt_pct none = "—" ∧
    fmt_mcap (some 123456789) = "$123,456,789" ∧
    fmt_mcap none = "—" := by
  refine ⟨?_, rfl, by decide, by decide, by decide, rfl, by decide, rfl⟩
  cases x with
  | none => rfl
  | some v =>
    simp only [fmt_price, fmtPriceSpec, tierDecimals]
    split_ifs <;> rfl

/-- C8: null numeric fields are total data, never errors: the heuristic,
the annotator and every formatter return definite values on null input,
and each null field of a report row is displayed as the sentinel "—". -/
theorem null_fields_total_sentinel (c : CoinRecord) (i : ℕ)
    (x y : Option ℚ) :
    looks_stable_like none x y = false ∧
    default_scenarios none = ("—", "—", "—") ∧
    fmt_price none = "—" ∧
    fmt_pct none = "—" ∧
    fmt_mcap none = "—" ∧
    (displayRow (mkRow i (nullNumerics c))).live_usd = "—" ∧
    (displayRow (mkRow i (nullNumerics c))).ch24 = "—" ∧
    (displayRow (mkRow i (nullNumerics c))).mcap = "—" :=
  ⟨rfl, rfl, rfl, rfl, rfl, rfl, rfl, rfl⟩

/-- C10: a missing 24h change alone (not only both changes missing) makes
the volatility check pass: any price in `[0.95, 1.05]` with `ch24 = none`
is `looks_stable_like` whatever `ch7d` is, and the concrete "usd"-named
record with a missing 24h change and a 7d change of 1000000 is excluded by
the stable heuristic and filtered out of the universe. -/
theorem volatility_skip_on_missing (p : ℚ) (ch7d : Option ℚ)
    (h1 : 0.95 ≤ p) (h2 : p ≤ 1.05) :
    looks_stable_like (some p) none ch7d = true ∧
    stableExcluded xusdRec = true ∧
    pick_universe [xusdRec] = [] := by
  refine ⟨?_, by decide, by decide⟩
  cases ch7d <;> simp [looks_stable_like, h1, h2]

/-- C10 witness: the hypotheses discharged at price 1 with a 7d change of
1000000. -/
theorem volatility_skip_on_missing_witness :
    looks_stable_like (some 1) none (some 1000000) = true ∧
    stableExcluded xusdRec = true ∧
    pick_universe [xusdRec] = [] :=
  volatility_skip_on_missing 1 (some 1000000) (by decide) (by decide)

/-- C3: a candidate is excluded by the stablecoin heuristic (lines
103–104) iff its price is non-null and in `[0.95, 1.05]`, the volatility
check passes (`|ch24| < 2.5` and `|ch7d| < 4.0`, missing change data
counting as passing), and "usd" occurs in its lowercase symbol or name;
and a record with a null price is never excluded by this heuristic. -/
theorem stable_heuristic_iff (c : CoinRecord) :
    (stableExcluded c = true ↔ stableLikeSpec c) ∧
    stableExcluded { c with current_price := none } = false := by
  refine ⟨?_, rfl⟩
  cases hp : c.current_price with
  | none =>
    simp [stableExcluded, looks_stable_like, stableLikeSpec, hp]
  | some p =>
    cases h24 : c.price_change_percentage_24h with
    | none =>
      cases h7 : c.price_change_percentage_7d_in_currency with
      | none =>
        simp [stableExcluded, looks_stable_like, stableLikeSpec, volPassSpec,
          hp, h24, h7, strContains, chContains_iff, and_assoc]
      | some b =>
        simp [stableExcluded, looks_stable_like, stableLikeSpec, volPassSpec,
          hp, h24, h7, strContains, chContains_iff, and_assoc]
    | some a =>
      cases h7 : c.price_change_percentage_7d_in_currency with
      | none =>
        simp [stableExcluded, looks_stable_like, stableLikeSpec, volPassSpec,
          hp, h24, h7, strContains, chContains_iff, and_assoc]
      | some b =>
        simp [stableExcluded, looks_stable_like, stableLikeSpec, volPassSpec,
          hp, h24, h7, strContains, chContains_iff, and_assoc]
